import Mathlib

/-!
Verification of the conversational storefront bot (`shop_bot.py`).

The SQLite tables become lists of rows; each `db_*` function is the
shallow embedding of the Python function of the same name, with SQL
`ORDER BY sort, id` rendered as an insertion sort on the lexicographic
key `(sort, id)` and `ON DELETE CASCADE` (the schema declares it and
`PRAGMA foreign_keys = ON` is set on every connection) rendered as the
transitive removal of descendant rows.  The aiogram FSM context becomes
an explicit per-user record of an optional step cursor plus an
accumulating record of optional fields; each handler becomes a function
from (database, context, actor, input) to (database, context, outcome).
-/

namespace ShopBot

/-- `OWNER_ID` constant from the configuration block. -/
def OWNER_ID : Nat := 1831731188

/-- `role_rank` from the source: a dict lookup with default 0. -/
def role_rank (role : String) : Nat :=
  if role = "user" then 0
  else if role = "mod" then 1
  else if role = "admin" then 2
  else if role = "owner" then 3
  else 0

/-- Python `str.strip()` on the inputs this bot sees: drop surrounding whitespace. -/
def pystrip (s : String) : String :=
  String.mk (((s.data.dropWhile Char.isWhitespace).reverse.dropWhile Char.isWhitespace).reverse)

/-- Python `str.isdigit()` on the inputs this bot sees: nonempty, all digits. -/
def pyIsDigits (s : String) : Bool :=
  !s.data.isEmpty && s.data.all Char.isDigit

/-- Python `int()` on an all-digit string. -/
def pyToNat (s : String) : Nat :=
  s.data.foldl (fun n c => n * 10 + (c.toNat - 48)) 0

/-- Row of the `categories` table. -/
structure Category where
  id : Nat
  title : String
  sort : Int
deriving DecidableEq, Repr

/-- Row of the `subcategories` table. -/
structure Subcategory where
  id : Nat
  category_id : Nat
  title : String
  sort : Int
deriving DecidableEq, Repr

/-- Row of the `products` table. -/
structure Product where
  id : Nat
  subcategory_id : Nat
  title : String
  price : String
  description : String
  media_type : String
  media_file_id : String
  is_active : Int
  sort : Int
deriving DecidableEq, Repr

/-- The JSON payload column of `purchase_methods`, as the three dict shapes
the handlers actually serialize: `{"url": u}`, `{"username": u, "template": t}`,
`{"text": t}`. -/
inductive PMPayload where
  | url (u : String)
  | manager (username template : String)
  | text (t : String)
deriving DecidableEq, Repr

/-- Row of the `purchase_methods` table (`product_id` is UNIQUE). -/
structure PurchaseMethod where
  id : Nat
  product_id : Nat
  method_type : String
  payload : PMPayload
  button_text : String
deriving DecidableEq, Repr

/-- The whole SQLite database: one list of rows per table, plus the
AUTOINCREMENT counters that assign fresh primary keys. -/
structure DB where
  users : List (Nat × String) := []
  settings : List (String × String) := []
  categories : List Category := []
  subcategories : List Subcategory := []
  products : List Product := []
  purchase_methods : List PurchaseMethod := []
  cat_seq : Nat := 1
  sub_seq : Nat := 1
  prod_seq : Nat := 1
  pm_seq : Nat := 1
deriving DecidableEq, Repr

/-- `DEFAULT_SETTINGS` from the source (string bytes as in the repository). -/
def DEFAULT_SETTINGS : List (String × String) :=
  [("start_text", "РџСЂРёРІРµС‚! РќР°Р¶РјРё РєРЅРѕРїРєСѓ Рё РѕС‚РєСЂРѕР№ РјР°РіР°Р·РёРЅ:"),
   ("support_text", "рџ† РџРѕРґРґРµСЂР¶РєР°\nРќР°РїРёС€РёС‚Рµ РјРµРЅРµРґР¶РµСЂСѓ: @your_manager_username"),
   ("group_welcome_text", "рџ‘‹ Р”РѕР±СЂРѕ РїРѕР¶Р°Р»РѕРІР°С‚СЊ! РҐРѕС‚РёС‚Рµ РїРѕСЃРјРѕС‚СЂРµС‚СЊ С‚РѕРІР°СЂС‹?\nРќР°Р¶РјРёС‚Рµ РєРЅРѕРїРєСѓ рџ‘‡"),
   ("group_welcome_button", "рџ›Ќ РћС‚РєСЂС‹С‚СЊ РјР°РіР°Р·РёРЅ")]

/-- `db_get_role`: the `users` row for the id, defaulting to the string `user`. -/
def db_get_role (db : DB) (user_id : Nat) : String :=
  match db.users.find? (fun p => p.1 == user_id) with
  | some p => p.2
  | none => "user"

/-- `db_set_role`: `INSERT ... ON CONFLICT(user_id) DO UPDATE SET role=excluded.role`. -/
def db_set_role (db : DB) (user_id : Nat) (role : String) : DB :=
  if db.users.any (fun p => p.1 == user_id) then
    { db with users := db.users.map (fun p => if p.1 == user_id then (p.1, role) else p) }
  else
    { db with users := db.users ++ [(user_id, role)] }

/-- `db_set_setting`: upsert into `settings`. -/
def db_set_setting (db : DB) (key value : String) : DB :=
  if db.settings.any (fun p => p.1 == key) then
    { db with settings := db.settings.map (fun p => if p.1 == key then (p.1, value) else p) }
  else
    { db with settings := db.settings ++ [(key, value)] }

/-- One step of the default-settings loop in `db_init`:
`INSERT ... ON CONFLICT(key) DO NOTHING`. -/
def settings_default_insert (acc : DB) (kv : String × String) : DB :=
  if acc.settings.any (fun p => p.1 == kv.1) then acc
  else { acc with settings := acc.settings ++ [kv] }

/-- `db_init`: the data effects of start-up — the owner upsert
(`INSERT ... ON CONFLICT(user_id) DO UPDATE SET role='owner'`) and the
`ON CONFLICT(key) DO NOTHING` insertion of each default setting. -/
def db_init (db : DB) : DB :=
  DEFAULT_SETTINGS.foldl settings_default_insert (db_set_role db OWNER_ID "owner")

/-- `require_min_role`: rank of the stored role is at least the rank of the
required role. -/
def require_min_role (db : DB) (user_id : Nat) (min_role : String) : Bool :=
  decide (role_rank (db_get_role db user_id) ≥ role_rank min_role)

/-- The authorization gate of the spec, as computed by the source:
`require_min_role` with the actor's role already looked up. -/
def allowed (actor_role required_role : String) : Bool :=
  decide (role_rank actor_role ≥ role_rank required_role)

/-- Spec-side role vocabulary (`Modelled from the spec` for comparison in C1):
user(0) < moderator(1) < admin(2) < owner(3); `moderator` is stored as the
string `mod`. -/
inductive SpecRole where
  | user
  | moderator
  | admin
  | owner
deriving DecidableEq, Fintype

/-- Spec-side rank (the numbers the spec assigns). -/
def specRank : SpecRole → Nat
  | .user => 0
  | .moderator => 1
  | .admin => 2
  | .owner => 3

/-- The role string the store uses for each spec role. -/
def specRoleStr : SpecRole → String
  | .user => "user"
  | .moderator => "mod"
  | .admin => "admin"
  | .owner => "owner"

/-- Lexicographic order on the SQL sort key `(sort, id)` used by every
`ORDER BY sort, id` query. -/
def keyLe (x y : Int × Nat) : Prop :=
  x.1 < y.1 ∨ (x.1 = y.1 ∧ x.2 ≤ y.2)

instance (x y : Int × Nat) : Decidable (keyLe x y) := by
  unfold keyLe; infer_instance

instance : IsTotal (Int × Nat) keyLe := by
  constructor
  intro a b
  unfold keyLe
  rcases lt_trichotomy a.1 b.1 with h | h | h
  · exact Or.inl (Or.inl h)
  · rcases Nat.le_total a.2 b.2 with h2 | h2
    · exact Or.inl (Or.inr ⟨h, h2⟩)
    · exact Or.inr (Or.inr ⟨h.symm, h2⟩)
  · exact Or.inr (Or.inl h)

instance : IsTrans (Int × Nat) keyLe := by
  constructor
  intro a b c hab hbc
  unfold keyLe at *
  rcases hab with h1 | ⟨e1, l1⟩
  · rcases hbc with h2 | ⟨e2, _⟩
    · exact Or.inl (h1.trans h2)
    · exact Or.inl (e2 ▸ h1)
  · rcases hbc with h2 | ⟨e2, l2⟩
    · exact Or.inl (e1 ▸ h2)
    · exact Or.inr ⟨e1.trans e2, l1.trans l2⟩

/-- `ORDER BY sort, id` on `categories` rows. -/
def catLe (a b : Category) : Prop := keyLe (a.sort, a.id) (b.sort, b.id)

instance (a b : Category) : Decidable (catLe a b) := by unfold catLe; infer_instance

instance : IsTotal Category catLe :=
  ⟨fun a b => IsTotal.total (r := keyLe) (a.sort, a.id) (b.sort, b.id)⟩

instance : IsTrans Category catLe :=
  ⟨fun _ _ _ hab hbc => IsTrans.trans (r := keyLe) _ _ _ hab hbc⟩

/-- `ORDER BY sort, id` on `subcategories` rows. -/
def subLe (a b : Subcategory) : Prop := keyLe (a.sort, a.id) (b.sort, b.id)

instance (a b : Subcategory) : Decidable (subLe a b) := by unfold subLe; infer_instance

instance : IsTotal Subcategory subLe :=
  ⟨fun a b => IsTotal.total (r := keyLe) (a.sort, a.id) (b.sort, b.id)⟩

instance : IsTrans Subcategory subLe :=
  ⟨fun _ _ _ hab hbc => IsTrans.trans (r := keyLe) _ _ _ hab hbc⟩

/-- `ORDER BY sort, id` on `products` rows. -/
def prodLe (a b : Product) : Prop := keyLe (a.sort, a.id) (b.sort, b.id)

instance (a b : Product) : Decidable (prodLe a b) := by unfold prodLe; infer_instance

instance : IsTotal Product prodLe :=
  ⟨fun a b => IsTotal.total (r := keyLe) (a.sort, a.id) (b.sort, b.id)⟩

instance : IsTrans Product prodLe :=
  ⟨fun _ _ _ hab hbc => IsTrans.trans (r := keyLe) _ _ _ hab hbc⟩

/-- The row sequence of `db_get_categories`: `SELECT ... ORDER BY sort, id`. -/
def db_categories_rows (db : DB) : List Category :=
  List.insertionSort catLe db.categories

/-- `db_get_categories`: `SELECT id, title FROM categories ORDER BY sort, id`. -/
def db_get_categories (db : DB) : List (Nat × String) :=
  (db_categories_rows db).map (fun c => (c.id, c.title))

/-- The row sequence of `db_get_subcategories`. -/
def db_subcategories_rows (db : DB) (category_id : Nat) : List Subcategory :=
  List.insertionSort subLe (db.subcategories.filter (fun s => s.category_id == category_id))

/-- `db_get_subcategories`: `SELECT id, title FROM subcategories WHERE
category_id=? ORDER BY sort, id`. -/
def db_get_subcategories (db : DB) (category_id : Nat) : List (Nat × String) :=
  (db_subcategories_rows db category_id).map (fun s => (s.id, s.title))

/-- The row sequence of `db_get_products`: `WHERE subcategory_id=?`, plus
`AND is_active=1` unless `include_inactive`, then `ORDER BY sort, id`. -/
def db_products_rows (db : DB) (subcategory_id : Nat) (include_inactive : Bool) : List Product :=
  List.insertionSort prodLe
    (db.products.filter
      (fun p => p.subcategory_id == subcategory_id && (include_inactive || p.is_active == 1)))

/-- `db_get_products`: the selected `(id, title, price, is_active)` columns. -/
def db_get_products (db : DB) (subcategory_id : Nat) (include_inactive : Bool) :
    List (Nat × String × String × Int) :=
  (db_products_rows db subcategory_id include_inactive).map
    (fun p => (p.id, p.title, p.price, p.is_active))

/-- `db_get_category`: `SELECT ... FROM categories WHERE id=?`. -/
def db_get_category (db : DB) (category_id : Nat) : Option Category :=
  db.categories.find? (fun c => c.id == category_id)

/-- `db_get_subcategory`: `SELECT ... FROM subcategories WHERE id=?`. -/
def db_get_subcategory (db : DB) (subcategory_id : Nat) : Option Subcategory :=
  db.subcategories.find? (fun s => s.id == subcategory_id)

/-- `db_get_product`: `SELECT ... FROM products WHERE id=?` (the full row). -/
def db_get_product (db : DB) (product_id : Nat) : Option Product :=
  db.products.find? (fun p => p.id == product_id)

/-- `db_get_purchase_method`: `SELECT method_type, payload, button_text FROM
purchase_methods WHERE product_id=?`. -/
def db_get_purchase_method (db : DB) (product_id : Nat) :
    Option (String × PMPayload × String) :=
  (db.purchase_methods.find? (fun m => m.product_id == product_id)).map
    (fun m => (m.method_type, m.payload, m.button_text))

/-- `db_upsert_purchase_method`: `INSERT ... ON CONFLICT(product_id) DO UPDATE`. -/
def db_upsert_purchase_method (db : DB) (product_id : Nat) (method_type : String)
    (payload : PMPayload) (button_text : String) : DB :=
  if db.purchase_methods.any (fun m => m.product_id == product_id) then
    let pms := db.purchase_methods.map
      (fun m => if m.product_id == product_id then
        { m with method_type := method_type, payload := payload,
                 button_text := button_text }
      else m)
    { db with purchase_methods := pms }
  else
    { db with
      purchase_methods := db.purchase_methods ++
        [⟨db.pm_seq, product_id, method_type, payload, button_text⟩],
      pm_seq := db.pm_seq + 1 }

/-- `db_add_category`: `INSERT INTO categories(title) VALUES(?)`
(AUTOINCREMENT id, `sort` defaults to 0). -/
def db_add_category (db : DB) (title : String) : DB :=
  { db with categories := db.categories ++ [⟨db.cat_seq, title, 0⟩],
            cat_seq := db.cat_seq + 1 }

/-- `db_add_subcategory`: `INSERT INTO subcategories(category_id, title)`. -/
def db_add_subcategory (db : DB) (category_id : Nat) (title : String) : DB :=
  { db with subcategories := db.subcategories ++ [⟨db.sub_seq, category_id, title, 0⟩],
            sub_seq := db.sub_seq + 1 }

/-- `db_add_product`: `INSERT INTO products(subcategory_id, title, price,
description, media_type, media_file_id)` (`is_active` defaults to 1, `sort`
to 0); returns the new database and `cur.lastrowid`. -/
def db_add_product (db : DB) (subcategory_id : Nat)
    (title price description media_type media_file_id : String) : DB × Nat :=
  ({ db with
      products := db.products ++
        [⟨db.prod_seq, subcategory_id, title, price, description,
          media_type, media_file_id, 1, 0⟩],
      prod_seq := db.prod_seq + 1 },
   db.prod_seq)

/-- `db_delete_category`: `DELETE FROM categories WHERE id=?` under
`PRAGMA foreign_keys = ON`; the schema's `ON DELETE CASCADE` removes the
subcategories of the category, the products of those subcategories, and the
purchase methods of those products. -/
def db_delete_category (db : DB) (category_id : Nat) : DB :=
  let deadSubIds := (db.subcategories.filter (fun s => s.category_id == category_id)).map (·.id)
  let deadProdIds := (db.products.filter (fun p => deadSubIds.contains p.subcategory_id)).map (·.id)
  { db with
    categories := db.categories.filter (fun c => !(c.id == category_id)),
    subcategories := db.subcategories.filter (fun s => !(s.category_id == category_id)),
    products := db.products.filter (fun p => !(deadSubIds.contains p.subcategory_id)),
    purchase_methods := db.purchase_methods.filter (fun m => !(deadProdIds.contains m.product_id)) }

/-- `db_toggle_product_active`: `UPDATE products SET is_active = CASE WHEN
is_active=1 THEN 0 ELSE 1 END WHERE id=?`. -/
def db_toggle_product_active (db : DB) (product_id : Nat) : DB :=
  let prods := db.products.map
    (fun p => if p.id == product_id then
      { p with is_active := if p.is_active == 1 then 0 else 1 }
    else p)
  { db with products := prods }

/-- `db_update_product_fields` specialized to the single-field updates the
handlers perform (`title`, `price`, `description` and the media pair). -/
def db_update_product_field (db : DB) (product_id : Nat)
    (upd : Product → Product) : DB :=
  let prods := db.products.map (fun p => if p.id == product_id then upd p else p)
  { db with products := prods }

/-- C1: for every pair of roles (actor, required) drawn from
{user, moderator, admin, owner}, `allowed(actor, required)` returns true iff
rank(actor) ≥ rank(required) in the order user(0) < moderator(1) < admin(2)
< owner(3); this covers all 16 pairs, and `require_min_role` is exactly
`allowed` applied to the stored role of the actor. -/
theorem C1_role_rank_total_order :
    (∀ a r : SpecRole,
      allowed (specRoleStr a) (specRoleStr r) = true ↔ specRank a ≥ specRank r)
    ∧ (∀ db uid mr, require_min_role db uid mr = allowed (db_get_role db uid) mr) :=
  ⟨by decide, fun _ _ _ => rfl⟩

/-- C9: every listing (categories, subcategories, products) returns its rows
sorted by the lexicographic key `(sort, id)` (id ascending breaks ties), the
returned rows are exactly a permutation of the matching table rows (nothing
dropped, nothing invented), the visible columns are the projection of that
sorted row sequence, and a repeated call on the same database returns the
identical sequence. -/
theorem C9_listing_ordered_stable :
    (∀ db : DB, List.Sorted catLe (db_categories_rows db)
      ∧ (db_categories_rows db).Perm db.categories
      ∧ db_get_categories db = (db_categories_rows db).map (fun c => (c.id, c.title)))
    ∧ (∀ db cid, List.Sorted subLe (db_subcategories_rows db cid)
      ∧ (db_subcategories_rows db cid).Perm
          (db.subcategories.filter (fun s => s.category_id == cid))
      ∧ db_get_subcategories db cid
          = (db_subcategories_rows db cid).map (fun s => (s.id, s.title)))
    ∧ (∀ db sid inc, List.Sorted prodLe (db_products_rows db sid inc)
      ∧ (db_products_rows db sid inc).Perm
          (db.products.filter
            (fun p => p.subcategory_id == sid && (inc || p.is_active == 1)))
      ∧ db_get_products db sid inc
          = (db_products_rows db sid inc).map (fun p => (p.id, p.title, p.price, p.is_active)))
    ∧ (∀ db : DB, db_get_categories db = db_get_categories db)
    ∧ (∀ db sid inc, db_get_products db sid inc = db_get_products db sid inc) := by
  refine ⟨fun db => ⟨?_, ?_, rfl⟩, fun db cid => ⟨?_, ?_, rfl⟩,
    fun db sid inc => ⟨?_, ?_, rfl⟩, fun _ => rfl, fun _ _ _ => rfl⟩
  · exact List.sorted_insertionSort catLe db.categories
  · exact List.perm_insertionSort catLe db.categories
  · exact List.sorted_insertionSort subLe _
  · exact List.perm_insertionSort subLe _
  · exact List.sorted_insertionSort prodLe _
  · exact List.perm_insertionSort prodLe _

/-- C3: deleting a category removes, transitively, every subcategory under
it, every product under those subcategories and every purchase method of
those products; afterwards listing products under any removed subcategory id
is empty, with or without `include_inactive`. -/
theorem contains_eq_false_iff (l : List Nat) (a : Nat) :
    l.contains a = false ↔ a ∉ l := by
  rw [← Bool.not_eq_true, List.elem_iff]

theorem C3_cascade_delete (db : DB) (cid : Nat)
    (s : Subcategory) (p : Product) (m : PurchaseMethod)
    (hs : s ∈ db.subcategories) (hsc : s.category_id = cid)
    (hp : p ∈ db.products) (hps : p.subcategory_id = s.id)
    (hm : m ∈ db.purchase_methods) (hmp : m.product_id = p.id) :
    s ∉ (db_delete_category db cid).subcategories
    ∧ p ∉ (db_delete_category db cid).products
    ∧ m ∉ (db_delete_category db cid).purchase_methods
    ∧ db_get_products (db_delete_category db cid) s.id true = []
    ∧ db_get_products (db_delete_category db cid) s.id false = [] := by
  have hsid : s.id ∈ (db.subcategories.filter
      (fun x => x.category_id == cid)).map (·.id) :=
    List.mem_map.mpr ⟨s, List.mem_filter.mpr ⟨hs, by simp [hsc]⟩, rfl⟩
  have hpid : p.id ∈ (db.products.filter
      (fun q => ((db.subcategories.filter (fun x => x.category_id == cid)).map (·.id)).contains
        q.subcategory_id)).map (·.id) :=
    List.mem_map.mpr ⟨p, List.mem_filter.mpr ⟨hp, by
      simp only [List.elem_iff]
      exact hps ▸ hsid⟩, rfl⟩
  refine ⟨?_, ?_, ?_, ?_, ?_⟩
  · intro hmem
    rcases List.mem_filter.mp hmem with ⟨_, hpred⟩
    simp [hsc] at hpred
  · intro hmem
    rcases List.mem_filter.mp hmem with ⟨_, hpred⟩
    rw [Bool.not_eq_true', contains_eq_false_iff] at hpred
    exact hpred (hps ▸ hsid)
  · intro hmem
    rcases List.mem_filter.mp hmem with ⟨_, hpred⟩
    rw [Bool.not_eq_true', contains_eq_false_iff] at hpred
    exact hpred (hmp ▸ hpid)
  · have hnil : db_products_rows (db_delete_category db cid) s.id true = [] := by
      unfold db_products_rows
      have hfil : (db_delete_category db cid).products.filter
          (fun q => q.subcategory_id == s.id && (true || q.is_active == 1)) = [] := by
        rw [List.filter_eq_nil_iff]
        intro q hq
        rcases List.mem_filter.mp hq with ⟨_, hpred⟩
        rw [Bool.not_eq_true', contains_eq_false_iff] at hpred
        intro hcontra
        rcases Bool.and_eq_true_iff.mp hcontra with ⟨heq, _⟩
        exact hpred ((eq_of_beq heq) ▸ hsid)
      rw [hfil]
      rfl
    unfold db_get_products
    rw [hnil]
    rfl
  · have hnil : db_products_rows (db_delete_category db cid) s.id false = [] := by
      unfold db_products_rows
      have hfil : (db_delete_category db cid).products.filter
          (fun q => q.subcategory_id == s.id && (false || q.is_active == 1)) = [] := by
        rw [List.filter_eq_nil_iff]
        intro q hq
        rcases List.mem_filter.mp hq with ⟨_, hpred⟩
        rw [Bool.not_eq_true', contains_eq_false_iff] at hpred
        intro hcontra
        rcases Bool.and_eq_true_iff.mp hcontra with ⟨heq, _⟩
        exact hpred ((eq_of_beq heq) ▸ hsid)
      rw [hfil]
      rfl
    unfold db_get_products
    rw [hnil]
    rfl

/-- Sample database used to instantiate the hypothesis-carrying theorems. -/
def dbSample : DB :=
  { users := [(OWNER_ID, "owner"), (7, "admin"), (8, "mod"), (9, "user")],
    settings := [],
    categories := [⟨1, "Drinks", 0⟩],
    subcategories := [⟨1, 1, "Soda", 0⟩],
    products := [⟨1, 1, "Cola", "2", "", "", "", 1, 0⟩,
                 ⟨2, 1, "Fanta", "3", "", "", "", 0, 0⟩],
    purchase_methods := [⟨1, 1, "link", .url "https://example.com/buy", "Buy"⟩],
    cat_seq := 2, sub_seq := 2, prod_seq := 3, pm_seq := 2 }

/-- C3 witness: the cascade theorem applied to `dbSample` at category 1. -/
theorem C3_cascade_delete_witness :
    (⟨1, 1, "Soda", 0⟩ : Subcategory) ∉ (db_delete_category dbSample 1).subcategories
    ∧ (⟨1, 1, "Cola", "2", "", "", "", 1, 0⟩ : Product) ∉ (db_delete_category dbSample 1).products
    ∧ (⟨1, 1, "link", .url "https://example.com/buy", "Buy"⟩ : PurchaseMethod)
        ∉ (db_delete_category dbSample 1).purchase_methods
    ∧ db_get_products (db_delete_category dbSample 1) 1 true = []
    ∧ db_get_products (db_delete_category dbSample 1) 1 false = [] :=
  C3_cascade_delete dbSample 1 ⟨1, 1, "Soda", 0⟩ ⟨1, 1, "Cola", "2", "", "", "", 1, 0⟩
    ⟨1, 1, "link", .url "https://example.com/buy", "Buy"⟩
    (by decide) rfl (by decide) rfl (by decide) rfl

theorem forall₂_map_self {α β : Type} (l : List α) (f : α → β)
    (P : α → β → Prop) (h : ∀ a ∈ l, P a (f a)) : List.Forall₂ P l (l.map f) := by
  induction l with
  | nil => exact List.Forall₂.nil
  | cons a t ih =>
    exact List.Forall₂.cons (h a (List.mem_cons_self a t))
      (ih fun b hb => h b (List.mem_cons_of_mem a hb))

theorem map_eq_self_of_eq_id {α : Type} (l : List α) (f : α → α)
    (h : ∀ a ∈ l, f a = a) : l.map f = l := by
  induction l with
  | nil => rfl
  | cons a t ih =>
    simp [h a (List.mem_cons_self a t), ih fun b hb => h b (List.mem_cons_of_mem a hb)]

/-- C10: toggling a product's active flag is an involution that touches
nothing else — toggling twice restores the database exactly (for tables
whose flags are the 0/1 the program ever writes), one toggle rewrites only
the targeted row's `is_active` (row by row, all other fields and all other
rows and tables unchanged), and toggling an id that matches no product row
changes nothing. -/
theorem C10_toggle_involution (db : DB) (pid : Nat)
    (hwf : ∀ p ∈ db.products, p.is_active = 0 ∨ p.is_active = 1) :
    db_toggle_product_active (db_toggle_product_active db pid) pid = db
    ∧ List.Forall₂ (fun p q =>
        (p.id ≠ pid → q = p)
        ∧ (p.id = pid → q = { p with is_active := if p.is_active == 1 then 0 else 1 }))
        db.products (db_toggle_product_active db pid).products
    ∧ (db_toggle_product_active db pid).categories = db.categories
    ∧ (db_toggle_product_active db pid).subcategories = db.subcategories
    ∧ (db_toggle_product_active db pid).purchase_methods = db.purchase_methods
    ∧ (db_toggle_product_active db pid).users = db.users
    ∧ ((∀ p ∈ db.products, p.id ≠ pid) → db_toggle_product_active db pid = db) := by
  obtain ⟨u, se, c, sc, pr, pm, s1, s2, s3, s4⟩ := db
  simp only at hwf
  refine ⟨?_, ?_, rfl, rfl, rfl, rfl, ?_⟩
  · simp only [db_toggle_product_active, List.map_map]
    have hmap : pr.map ((fun p => if p.id == pid then
        { p with is_active := if p.is_active == 1 then 0 else 1 } else p) ∘
        (fun p => if p.id == pid then
        { p with is_active := if p.is_active == 1 then 0 else 1 } else p)) = pr := by
      apply map_eq_self_of_eq_id
      intro p hp
      obtain ⟨i, pscid, t, ppr, d, mt, mf, act, srt⟩ := p
      rcases hwf _ hp with h | h <;>
        simp only [Product.mk.injEq] at h <;> subst h <;>
          by_cases hid : i = pid <;> simp [hid]
    rw [hmap]
  · simp only [db_toggle_product_active]
    apply forall₂_map_self
    intro p hp
    refine ⟨fun hne => ?_, fun heq => ?_⟩
    · simp [hne]
    · simp [heq]
  · intro hnone
    simp only [db_toggle_product_active]
    have hmap : pr.map (fun p => if p.id == pid then
        { p with is_active := if p.is_active == 1 then 0 else 1 } else p) = pr := by
      apply map_eq_self_of_eq_id
      intro p hp
      simp [hnone p hp]
    rw [hmap]

/-- C10 witness: the toggle theorem applied to `dbSample` at product 2. -/
theorem C10_toggle_involution_witness :
    db_toggle_product_active (db_toggle_product_active dbSample 2) 2 = dbSample
    ∧ List.Forall₂ (fun p q =>
        (p.id ≠ 2 → q = p)
        ∧ (p.id = 2 → q = { p with is_active := if p.is_active == 1 then 0 else 1 }))
        dbSample.products (db_toggle_product_active dbSample 2).products
    ∧ (db_toggle_product_active dbSample 2).categories = dbSample.categories
    ∧ (db_toggle_product_active dbSample 2).subcategories = dbSample.subcategories
    ∧ (db_toggle_product_active dbSample 2).purchase_methods = dbSample.purchase_methods
    ∧ (db_toggle_product_active dbSample 2).users = dbSample.users
    ∧ ((∀ p ∈ dbSample.products, p.id ≠ 2) → db_toggle_product_active dbSample 2 = dbSample) :=
  C10_toggle_involution dbSample 2 (by decide)

/-- One button of `kb_products`: label is the title, `" — "` plus price when
the price is nonempty, and for staff viewers the `⛔ ` prefix when the row is
inactive; callback data is `prod:{category}:{subcategory}:{product}`. -/
def product_button (category_id subcategory_id : Nat) (is_staff : Bool)
    (r : Nat × String × String × Int) : String × String :=
  let label := r.2.1 ++ (if r.2.2.1 ≠ "" then " вЂ” " ++ r.2.2.1 else "")
  let label := if is_staff && r.2.2.2 == 0 then "в›” " ++ label else label
  (label, "prod:" ++ toString category_id ++ ":" ++ toString subcategory_id
    ++ ":" ++ toString r.1)

/-- `kb_products`: buttons for `db_get_products(subcategory_id,
include_inactive=is_staff)` followed by the back button. -/
def kb_products (db : DB) (category_id subcategory_id : Nat) (is_staff : Bool) :
    List (String × String) :=
  (db_get_products db subcategory_id is_staff).map
    (product_button category_id subcategory_id is_staff)
  ++ [("в¬…пёЏ РќР°Р·Р°Рґ", "cat:" ++ toString category_id)]

/-- Outcome of the `cb_product` product-view callback. -/
inductive ProductView where
  | notFound
  | unavailable
  | shown (text : String) (has_buy is_mod is_admin : Bool)
deriving DecidableEq, Repr

/-- `cb_product`: direct product view — `NotFound` alert when the row is
missing, the `Товар недоступен` alert when the product is inactive and the
viewer is below `mod`, otherwise the rendered card. -/
def cb_product (db : DB) (uid pid : Nat) : ProductView :=
  match db_get_product db pid with
  | none => .notFound
  | some p =>
    let is_mod := require_min_role db uid "mod"
    let is_admin := require_min_role db uid "admin"
    if p.is_active == 0 && !is_mod then .unavailable
    else
      let method := db_get_purchase_method db pid
      let text := "<b>" ++ p.title ++ "</b>\n"
        ++ (if p.price ≠ "" then "рџ’° Р¦РµРЅР°: <b>" ++ p.price ++ "</b>\n" else "")
        ++ (if p.description ≠ "" then "\n" ++ p.description else "")
      .shown text method.isSome is_mod is_admin

/-- C6: an inactive product (`is_active = 0`) is omitted from an ordinary
caller's listing (every listed row of the `include_inactive = false` query
has `is_active = 1`), its direct view by a caller below `mod` is refused
with the unavailable alert, while the staff listing
(`include_inactive = true`) contains its row and renders its button with the
`⛔ ` prefix that active rows never get. -/
theorem C6_inactive_product_visibility (db : DB) (p : Product)
    (uid cid : Nat)
    (hp : p ∈ db.products) (hinact : p.is_active = 0)
    (hOrd : require_min_role db uid "mod" = false)
    (hLookup : db_get_product db p.id = some p) :
    (∀ r ∈ db_get_products db p.subcategory_id false, r.2.2.2 = 1)
    ∧ (p.id, p.title, p.price, p.is_active) ∈ db_get_products db p.subcategory_id true
    ∧ (product_button cid p.subcategory_id true (p.id, p.title, p.price, p.is_active)).1
        = "в›” " ++ (p.title ++ (if p.price ≠ "" then " вЂ” " ++ p.price else ""))
    ∧ (product_button cid p.subcategory_id true (p.id, p.title, p.price, p.is_active))
        ∈ kb_products db cid p.subcategory_id true
    ∧ (∀ r ∈ db_get_products db p.subcategory_id true, r.2.2.2 ≠ 0 →
        (product_button cid p.subcategory_id true r).1
          = r.2.1 ++ (if r.2.2.1 ≠ "" then " вЂ” " ++ r.2.2.1 else ""))
    ∧ cb_product db uid p.id = .unavailable := by
  have hrow : (p.id, p.title, p.price, p.is_active)
      ∈ db_get_products db p.subcategory_id true := by
    unfold db_get_products db_products_rows
    refine List.mem_map.mpr ⟨p, ?_, rfl⟩
    rw [List.mem_insertionSort]
    exact List.mem_filter.mpr ⟨hp, by simp⟩
  refine ⟨?_, hrow, ?_, ?_, ?_, ?_⟩
  · intro r hr
    unfold db_get_products db_products_rows at hr
    rcases List.mem_map.mp hr with ⟨q, hq, hqr⟩
    rw [List.mem_insertionSort] at hq
    rcases List.mem_filter.mp hq with ⟨_, hpred⟩
    rcases Bool.and_eq_true_iff.mp hpred with ⟨_, hact⟩
    simp only [Bool.false_or] at hact
    rw [← hqr]
    exact eq_of_beq hact
  · simp [product_button, hinact]
  · exact List.mem_append_left _ (List.mem_map.mpr ⟨_, hrow, rfl⟩)
  · intro r _ hact
    simp [product_button, hact]
  · unfold cb_product
    rw [hLookup]
    simp [hinact, hOrd]

/-- C6 witness: the visibility theorem at `dbSample`, inactive product 2
("Fanta"), ordinary user 9. -/
theorem C6_inactive_product_visibility_witness :
    (∀ r ∈ db_get_products dbSample 1 false, r.2.2.2 = 1)
    ∧ ((2 : Nat), "Fanta", "3", (0 : Int)) ∈ db_get_products dbSample 1 true
    ∧ (product_button 1 1 true (2, "Fanta", "3", 0)).1
        = "в›” " ++ ("Fanta" ++ (if "3" ≠ "" then " вЂ” " ++ "3" else ""))
    ∧ (product_button 1 1 true (2, "Fanta", "3", 0)) ∈ kb_products dbSample 1 1 true
    ∧ (∀ r ∈ db_get_products dbSample 1 true, r.2.2.2 ≠ 0 →
        (product_button 1 1 true r).1
          = r.2.1 ++ (if r.2.2.1 ≠ "" then " вЂ” " ++ r.2.2.1 else ""))
    ∧ cb_product dbSample 9 2 = .unavailable :=
  C6_inactive_product_visibility dbSample
    ⟨2, 1, "Fanta", "3", "", "", "", 0, 0⟩ 9 1
    (by decide) rfl (by decide) (by decide)

/-- The aiogram `State` tokens of the nine `StatesGroup` classes. -/
inductive St where
  | addCategory_title
  | addSubcategory_pick_category
  | addSubcategory_title
  | addProduct_pick_category
  | addProduct_pick_subcategory
  | addProduct_title
  | addProduct_price
  | addProduct_description
  | addProduct_media
  | addProduct_purchase_type
  | addProduct_purchase_payload
  | addProduct_purchase_button_text
  | setBuy_product_id
  | setBuy_purchase_type
  | setBuy_purchase_payload
  | setBuy_purchase_button_text
  | rolesManage_action
  | rolesManage_user_id
  | rolesManage_role
  | rolesManage_target_user_id
  | editTexts_key
  | editTexts_value
  | editCategory_category_id
  | editCategory_new_title
  | editSubcategory_subcategory_id
  | editSubcategory_new_title
  | editProduct_product_id
  | editProduct_field
  | editProduct_value
deriving DecidableEq, Repr

/-- The accumulated FSM `data` dict: every key any handler ever writes, each
optional (`update_data` merges a key; `clear` drops them all). -/
structure FSMData where
  category_id : Option Nat := none
  subcategory_id : Option Nat := none
  title : Option String := none
  price : Option String := none
  description : Option String := none
  media_type : Option String := none
  media_file_id : Option String := none
  purchase_type : Option String := none
  purchase_payload : Option PMPayload := none
  product_id : Option Nat := none
  field : Option String := none
  action : Option String := none
  target_user_id : Option Nat := none
  key : Option String := none
deriving DecidableEq, Repr

/-- One user's aiogram `FSMContext`: the current state token (none when no
form is open) and the accumulated data; `set_state` writes only `state`,
`state.clear()` resets both. -/
structure FSMCtx where
  state : Option St := none
  data : FSMData := {}
deriving DecidableEq, Repr

/-- An inbound message: optional text, optional photo file id (largest
size), optional video file id. -/
structure Msg where
  text : Option String := none
  photo : Option String := none
  video : Option String := none
deriving DecidableEq, Repr

/-- What a handler did with the event. -/
inductive Outcome where
  | notRouted
  | ignored
  | unauthorizedAlert
  | notFoundAlert
  | noOptions
  | reprompt
  | advanced
  | committed
  | refusedOwner
  | invalidInput
  | dataError
deriving DecidableEq, Repr

/-- Result of one handler invocation. -/
structure HRes where
  db : DB
  ctx : FSMCtx
  out : Outcome
deriving DecidableEq, Repr

/-- `cb_add_cat` (`adm_add_cat` button): admin gate with alert, then
`set_state(AddCategory.title)` only — the previous form's data is kept. -/
def cb_add_cat (db : DB) (ctx : FSMCtx) (uid : Nat) : HRes :=
  if !(require_min_role db uid "admin") then ⟨db, ctx, .unauthorizedAlert⟩
  else ⟨db, { ctx with state := some .addCategory_title }, .advanced⟩

/-- `st_add_cat_title` (message in `AddCategory.title`): admin re-check with
a silent return, empty-title re-prompt, else `db_add_category` and clear. -/
def st_add_cat_title (db : DB) (ctx : FSMCtx) (uid : Nat) (mtext : Option String) : HRes :=
  if ctx.state ≠ some St.addCategory_title then ⟨db, ctx, .notRouted⟩
  else if !(require_min_role db uid "admin") then ⟨db, ctx, .ignored⟩
  else
    let title := pystrip (mtext.getD "")
    if title = "" then ⟨db, ctx, .reprompt⟩
    else ⟨db_add_category db title, { state := none, data := {} }, .committed⟩

/-- `cb_add_sub` (`adm_add_sub` button): admin gate, no categories means a
message without opening the form, else `set_state(AddSubcategory.pick_category)`. -/
def cb_add_sub (db : DB) (ctx : FSMCtx) (uid : Nat) : HRes :=
  if !(require_min_role db uid "admin") then ⟨db, ctx, .unauthorizedAlert⟩
  else if db_get_categories db = [] then ⟨db, ctx, .noOptions⟩
  else ⟨db, { ctx with state := some .addSubcategory_pick_category }, .advanced⟩

/-- `cb_pick_cat_for_sub` (state-gated callback, no role check in the
source): store `category_id`, advance to the title step. -/
def cb_pick_cat_for_sub (db : DB) (ctx : FSMCtx) (cid : Nat) : HRes :=
  if ctx.state ≠ some St.addSubcategory_pick_category then ⟨db, ctx, .notRouted⟩
  else ⟨db, { state := some .addSubcategory_title,
              data := { ctx.data with category_id := some cid } }, .advanced⟩

/-- `st_add_sub_title` (message in `AddSubcategory.title`). -/
def st_add_sub_title (db : DB) (ctx : FSMCtx) (uid : Nat) (mtext : Option String) : HRes :=
  if ctx.state ≠ some St.addSubcategory_title then ⟨db, ctx, .notRouted⟩
  else if !(require_min_role db uid "admin") then ⟨db, ctx, .ignored⟩
  else
    let title := pystrip (mtext.getD "")
    if title = "" then ⟨db, ctx, .reprompt⟩
    else
      match ctx.data.category_id with
      | none => ⟨db, ctx, .dataError⟩
      | some cid =>
        ⟨db_add_subcategory db cid title, { state := none, data := {} }, .committed⟩

/-- `cb_add_product` (`adm_add_product` button). -/
def cb_add_product (db : DB) (ctx : FSMCtx) (uid : Nat) : HRes :=
  if !(require_min_role db uid "admin") then ⟨db, ctx, .unauthorizedAlert⟩
  else if db_get_categories db = [] then ⟨db, ctx, .noOptions⟩
  else ⟨db, { ctx with state := some .addProduct_pick_category }, .advanced⟩

/-- `cb_prod_pick_cat` (state-gated): no subcategories means an alert and no
advance; else `set_state(AddProduct.pick_subcategory)` (the category id is
not stored at this step). -/
def cb_prod_pick_cat (db : DB) (ctx : FSMCtx) (cid : Nat) : HRes :=
  if ctx.state ≠ some St.addProduct_pick_category then ⟨db, ctx, .notRouted⟩
  else if db_get_subcategories db cid = [] then ⟨db, ctx, .noOptions⟩
  else ⟨db, { ctx with state := some .addProduct_pick_subcategory }, .advanced⟩

/-- `cb_prod_pick_sub` (state-gated): store both ids, advance to title. -/
def cb_prod_pick_sub (db : DB) (ctx : FSMCtx) (cid sid : Nat) : HRes :=
  if ctx.state ≠ some St.addProduct_pick_subcategory then ⟨db, ctx, .notRouted⟩
  else
    let d := { ctx.data with category_id := some cid, subcategory_id := some sid }
    ⟨db, { state := some .addProduct_title, data := d }, .advanced⟩

/-- `st_prod_title` (message in `AddProduct.title`; the source has no role
check here). -/
def st_prod_title (db : DB) (ctx : FSMCtx) (uid : Nat) (mtext : Option String) : HRes :=
  if ctx.state ≠ some St.addProduct_title then ⟨db, ctx, .notRouted⟩
  else
    let title := pystrip (mtext.getD "")
    if title = "" then ⟨db, ctx, .reprompt⟩
    else ⟨db, { state := some .addProduct_price,
                data := { ctx.data with title := some title } }, .advanced⟩

/-- `st_prod_price` (message in `AddProduct.price`; no role check, no
validation beyond the `-` skip sentinel). -/
def st_prod_price (db : DB) (ctx : FSMCtx) (uid : Nat) (mtext : Option String) : HRes :=
  if ctx.state ≠ some St.addProduct_price then ⟨db, ctx, .notRouted⟩
  else
    let price0 := pystrip (mtext.getD "")
    let price := if price0 = "-" then "" else price0
    ⟨db, { state := some .addProduct_description,
           data := { ctx.data with price := some price } }, .advanced⟩

/-- `st_prod_desc` (message in `AddProduct.description`). -/
def st_prod_desc (db : DB) (ctx : FSMCtx) (uid : Nat) (mtext : Option String) : HRes :=
  if ctx.state ≠ some St.addProduct_description then ⟨db, ctx, .notRouted⟩
  else
    let d0 := pystrip (mtext.getD "")
    let d := if d0 = "-" then "" else d0
    ⟨db, { state := some .addProduct_media,
           data := { ctx.data with description := some d } }, .advanced⟩

/-- `st_prod_media` (message in `AddProduct.media`): `-` text skips, photo or
video stores the file id, anything else re-prompts. -/
def st_prod_media (db : DB) (ctx : FSMCtx) (uid : Nat) (msg : Msg) : HRes :=
  if ctx.state ≠ some St.addProduct_media then ⟨db, ctx, .notRouted⟩
  else
    let textSkip := match msg.text with
      | some t => t != "" && pystrip t == "-"
      | none => false
    if textSkip then
      ⟨db, { state := some .addProduct_purchase_type,
             data := { ctx.data with media_type := some "", media_file_id := some "" } },
       .advanced⟩
    else
      match msg.photo with
      | some fid =>
        let d := { ctx.data with media_type := some "photo", media_file_id := some fid }
        ⟨db, { state := some .addProduct_purchase_type, data := d }, .advanced⟩
      | none =>
        match msg.video with
        | some fid =>
          let d := { ctx.data with media_type := some "video", media_file_id := some fid }
          ⟨db, { state := some .addProduct_purchase_type, data := d }, .advanced⟩
        | none => ⟨db, ctx, .reprompt⟩

/-- `cb_pm_type` (state-gated `pm_type:{kind}` callback). -/
def cb_pm_type (db : DB) (ctx : FSMCtx) (ptype : String) : HRes :=
  if ctx.state ≠ some St.addProduct_purchase_type then ⟨db, ctx, .notRouted⟩
  else ⟨db, { state := some .addProduct_purchase_payload,
              data := { ctx.data with purchase_type := some ptype } }, .advanced⟩

/-- The default manager message template the payload handlers store. -/
def MANAGER_TEMPLATE : String :=
  "Р—РґСЂР°РІСЃС‚РІСѓР№С‚Рµ! РҐРѕС‡Сѓ РєСѓРїРёС‚СЊ С‚РѕРІР°СЂ (id=\x7bproduct_id\x7d)."

/-- `st_pm_payload` (message in `AddProduct.purchase_payload`): rejects only
empty input; `link` wraps the raw text as the url with no scheme check. -/
def st_pm_payload (db : DB) (ctx : FSMCtx) (uid : Nat) (mtext : Option String) : HRes :=
  if ctx.state ≠ some St.addProduct_purchase_payload then ⟨db, ctx, .notRouted⟩
  else
    let txt := pystrip (mtext.getD "")
    if txt = "" then ⟨db, ctx, .reprompt⟩
    else
      match ctx.data.purchase_type with
      | none => ⟨db, ctx, .dataError⟩
      | some ptype =>
        let payload :=
          if ptype = "link" then PMPayload.url txt
          else if ptype = "manager" then
            PMPayload.manager (if txt.startsWith "@" then txt.drop 1 else txt) MANAGER_TEMPLATE
          else PMPayload.text txt
        ⟨db, { state := some .addProduct_purchase_button_text,
               data := { ctx.data with purchase_payload := some payload } }, .advanced⟩

/-- `st_pm_btn` (message in `AddProduct.purchase_button_text`, the final Add
Product step; the source has no role check here): two separately committed
writes — `db_add_product`, then `db_upsert_purchase_method`. -/
def st_pm_btn (db : DB) (ctx : FSMCtx) (uid : Nat) (mtext : Option String) : HRes :=
  if ctx.state ≠ some St.addProduct_purchase_button_text then ⟨db, ctx, .notRouted⟩
  else
    let btn0 := pystrip (mtext.getD "")
    let btn := if btn0 = "-" || btn0 = "" then "РљСѓРїРёС‚СЊ" else btn0
    match ctx.data.subcategory_id, ctx.data.title, ctx.data.price, ctx.data.description,
        ctx.data.media_type, ctx.data.media_file_id, ctx.data.purchase_type,
        ctx.data.purchase_payload with
    | some sid, some title, some price, some description, some mt, some mf,
        some ptype, some payload =>
      let tx1 := db_add_product db sid title price description mt mf
      let db2 := db_upsert_purchase_method tx1.1 tx1.2 ptype payload btn
      ⟨db2, { state := none, data := {} }, .committed⟩
    | _, _, _, _, _, _, _, _ => ⟨db, ctx, .dataError⟩

/-- `cb_setbuy_start` (`adm_setbuy:{pid}` button): admin gate, product must
exist, then open the SetBuy form storing `product_id`. -/
def cb_setbuy_start (db : DB) (ctx : FSMCtx) (uid pid : Nat) : HRes :=
  if !(require_min_role db uid "admin") then ⟨db, ctx, .unauthorizedAlert⟩
  else
    match db_get_product db pid with
    | none => ⟨db, ctx, .notFoundAlert⟩
    | some _ =>
      ⟨db, { state := some .setBuy_product_id,
             data := { ctx.data with product_id := some pid } }, .advanced⟩

/-- `cb_setbuy_type` (state-gated `setbuy_type:{kind}` callback). -/
def cb_setbuy_type (db : DB) (ctx : FSMCtx) (ptype : String) : HRes :=
  if ctx.state ≠ some St.setBuy_product_id then ⟨db, ctx, .notRouted⟩
  else ⟨db, { state := some .setBuy_purchase_payload,
              data := { ctx.data with purchase_type := some ptype } }, .advanced⟩

/-- `st_setbuy_payload` (message in `SetBuy.purchase_payload`): same
validation as `st_pm_payload` — non-empty only, no scheme check. -/
def st_setbuy_payload (db : DB) (ctx : FSMCtx) (uid : Nat) (mtext : Option String) : HRes :=
  if ctx.state ≠ some St.setBuy_purchase_payload then ⟨db, ctx, .notRouted⟩
  else
    let txt := pystrip (mtext.getD "")
    if txt = "" then ⟨db, ctx, .reprompt⟩
    else
      match ctx.data.purchase_type with
      | none => ⟨db, ctx, .dataError⟩
      | some ptype =>
        let payload :=
          if ptype = "link" then PMPayload.url txt
          else if ptype = "manager" then
            PMPayload.manager (if txt.startsWith "@" then txt.drop 1 else txt) MANAGER_TEMPLATE
          else PMPayload.text txt
        ⟨db, { state := some .setBuy_purchase_button_text,
               data := { ctx.data with purchase_payload := some payload } }, .advanced⟩

/-- `st_setbuy_btn` (message in `SetBuy.purchase_button_text`): upsert the
method and clear. -/
def st_setbuy_btn (db : DB) (ctx : FSMCtx) (uid : Nat) (mtext : Option String) : HRes :=
  if ctx.state ≠ some St.setBuy_purchase_button_text then ⟨db, ctx, .notRouted⟩
  else
    let btn0 := pystrip (mtext.getD "")
    let btn := if btn0 = "-" || btn0 = "" then "РљСѓРїРёС‚СЊ" else btn0
    match ctx.data.product_id, ctx.data.purchase_type, ctx.data.purchase_payload with
    | some pid, some ptype, some payload =>
      ⟨db_upsert_purchase_method db pid ptype payload btn,
       { state := none, data := {} }, .committed⟩
    | _, _, _ => ⟨db, ctx, .dataError⟩

/-- `cb_role_action` (`role_action:{set|unset}` button): owner gate, store
the action, ask for the target user id. -/
def cb_role_action (db : DB) (ctx : FSMCtx) (uid : Nat) (action : String) : HRes :=
  if !(require_min_role db uid "owner") then ⟨db, ctx, .unauthorizedAlert⟩
  else ⟨db, { state := some .rolesManage_user_id,
              data := { ctx.data with action := some action } }, .advanced⟩

/-- `st_role_user_id` (message in `RolesManage.user_id`): owner re-check
(silent), digits check, the explicit owner-target refusal
(`Нельзя снять роль с OWNER_ID.`) for any non-`set` action, immediate
`unset` commit, else advance to the role pick. -/
def st_role_user_id (db : DB) (ctx : FSMCtx) (uid : Nat) (mtext : Option String) : HRes :=
  if ctx.state ≠ some St.rolesManage_user_id then ⟨db, ctx, .notRouted⟩
  else if !(require_min_role db uid "owner") then ⟨db, ctx, .ignored⟩
  else
    let txt := pystrip (mtext.getD "")
    if !(pyIsDigits txt) then ⟨db, ctx, .invalidInput⟩
    else
      let target := pyToNat txt
      if target == OWNER_ID && !(ctx.data.action == some "set") then
        ⟨db, ctx, .refusedOwner⟩
      else if ctx.data.action == some "unset" then
        ⟨db_set_role db target "user", { state := none, data := {} }, .committed⟩
      else
        ⟨db, { state := some .rolesManage_role,
               data := { ctx.data with target_user_id := some target } }, .advanced⟩

/-- `cb_set_role` (state-gated `setrole:{role}` callback): owner gate, the
owner-target refusal (`OWNER_ID всегда owner`), else `db_set_role`. -/
def cb_set_role (db : DB) (ctx : FSMCtx) (uid : Nat) (role : String) : HRes :=
  if ctx.state ≠ some St.rolesManage_role then ⟨db, ctx, .notRouted⟩
  else if !(require_min_role db uid "owner") then ⟨db, ctx, .unauthorizedAlert⟩
  else
    match ctx.data.target_user_id with
    | none => ⟨db, ctx, .dataError⟩
    | some target =>
      if target == OWNER_ID then ⟨db, ctx, .refusedOwner⟩
      else ⟨db_set_role db target role, { state := none, data := {} }, .committed⟩

/-- The role side effect of the `/start` handler. -/
def start_role_effect (db : DB) (uid : Nat) : DB :=
  if uid == OWNER_ID then db_set_role db uid "owner"
  else if db_get_role db uid = "user" then db_set_role db uid "user"
  else db

theorem find?_append_left_none {α : Type} (l rest : List α) (f : α → Bool)
    (h : ∀ a ∈ l, f a = false) : (l ++ rest).find? f = rest.find? f := by
  induction l with
  | nil => rfl
  | cons a t ih =>
    rw [List.cons_append, List.find?_cons, h a (List.mem_cons_self a t)]
    exact ih fun b hb => h b (List.mem_cons_of_mem a hb)

theorem find?_map_upsert_self (l : List (Nat × String)) (uid : Nat) (r : String)
    (h : l.any (fun p => p.1 == uid) = true) :
    (l.map (fun p => if p.1 == uid then (p.1, r) else p)).find? (fun p => p.1 == uid)
      = some (uid, r) := by
  induction l with
  | nil => simp at h
  | cons a t ih =>
    rw [List.map_cons]
    by_cases ha : a.1 = uid
    · have hfa : (if a.1 == uid then (a.1, r) else a) = (a.1, r) := if_pos (by simp [ha])
      rw [hfa, List.find?_cons_of_pos (p := fun q : Nat × String => q.1 == uid) _
        (show ((a.1, r).1 == uid) = true by simp [ha]), ha]
    · have hfa : (if a.1 == uid then (a.1, r) else a) = a := if_neg (by simp [ha])
      rw [hfa, List.find?_cons_of_neg (p := fun q : Nat × String => q.1 == uid) _
        (show ¬ (a.1 == uid) = true by simp [ha])]
      apply ih
      simp only [List.any_cons, (show (a.1 == uid) = false by simp [ha]), Bool.false_or] at h
      exact h

theorem find?_map_upsert_other (l : List (Nat × String)) (tid uid : Nat) (r : String)
    (hne : tid ≠ uid) :
    (l.map (fun p => if p.1 == tid then (p.1, r) else p)).find? (fun p => p.1 == uid)
      = l.find? (fun p => p.1 == uid) := by
  induction l with
  | nil => rfl
  | cons a t ih =>
    rw [List.map_cons]
    by_cases ha : a.1 = tid
    · have hfa : (if a.1 == tid then (a.1, r) else a) = (a.1, r) := if_pos (by simp [ha])
      have hu : ¬ a.1 = uid := fun he => hne (ha ▸ he)
      rw [hfa,
        List.find?_cons_of_neg (p := fun q : Nat × String => q.1 == uid) _
          (show ¬ ((a.1, r).1 == uid) = true by simp [hu]),
        List.find?_cons_of_neg (p := fun q : Nat × String => q.1 == uid) _
          (show ¬ (a.1 == uid) = true by simp [hu])]
      exact ih
    · have hfa : (if a.1 == tid then (a.1, r) else a) = a := if_neg (by simp [ha])
      rw [hfa]
      by_cases hu : a.1 = uid
      · rw [List.find?_cons_of_pos (p := fun q : Nat × String => q.1 == uid) _
            (show (a.1 == uid) = true by simp [hu]),
          List.find?_cons_of_pos (p := fun q : Nat × String => q.1 == uid) _
            (show (a.1 == uid) = true by simp [hu])]
      · rw [List.find?_cons_of_neg (p := fun q : Nat × String => q.1 == uid) _
            (show ¬ (a.1 == uid) = true by simp [hu]),
          List.find?_cons_of_neg (p := fun q : Nat × String => q.1 == uid) _
            (show ¬ (a.1 == uid) = true by simp [hu])]
        exact ih

theorem db_get_role_set_self (db : DB) (uid : Nat) (r : String) :
    db_get_role (db_set_role db uid r) uid = r := by
  unfold db_get_role db_set_role
  by_cases h : db.users.any (fun p => p.1 == uid) = true
  · simp only [h, if_true]
    rw [find?_map_upsert_self db.users uid r h]
  · have h' : db.users.any (fun p => p.1 == uid) = false := by
      revert h; cases db.users.any (fun p => p.1 == uid) <;> simp
    have hall : ∀ a ∈ db.users, (a.1 == uid) = false := by
      intro a ha
      by_cases hx : a.1 = uid
      · exfalso
        have : db.users.any (fun p => p.1 == uid) = true :=
          List.any_eq_true.mpr ⟨a, ha, by simp [hx]⟩
        rw [this] at h'
        exact Bool.noConfusion h'
      · simp [hx]
    simp only [h', Bool.false_eq_true, if_false]
    rw [find?_append_left_none db.users [(uid, r)] _ hall]
    simp [List.find?_cons]

theorem db_get_role_set_other (db : DB) (tid uid : Nat) (r : String) (hne : tid ≠ uid) :
    db_get_role (db_set_role db tid r) uid = db_get_role db uid := by
  unfold db_get_role db_set_role
  by_cases h : db.users.any (fun p => p.1 == tid) = true
  · simp only [h, if_true]
    rw [find?_map_upsert_other db.users tid uid r hne]
  · have h' : db.users.any (fun p => p.1 == tid) = false := by
      revert h; cases db.users.any (fun p => p.1 == tid) <;> simp
    simp only [h', Bool.false_eq_true, if_false]
    have hfind : (db.users ++ [(tid, r)]).find? (fun p => p.1 == uid)
        = db.users.find? (fun p => p.1 == uid) := by
      induction db.users with
      | nil =>
        rw [List.nil_append,
          List.find?_cons_of_neg (p := fun q : Nat × String => q.1 == uid) _
            (show ¬ ((tid, r).1 == uid) = true by simp [hne])]
      | cons a t ih =>
        rw [List.cons_append]
        by_cases hu : a.1 = uid
        · rw [List.find?_cons_of_pos (p := fun q : Nat × String => q.1 == uid) _
              (show (a.1 == uid) = true by simp [hu]),
            List.find?_cons_of_pos (p := fun q : Nat × String => q.1 == uid) _
              (show (a.1 == uid) = true by simp [hu])]
        · rw [List.find?_cons_of_neg (p := fun q : Nat × String => q.1 == uid) _
              (show ¬ (a.1 == uid) = true by simp [hu]),
            List.find?_cons_of_neg (p := fun q : Nat × String => q.1 == uid) _
              (show ¬ (a.1 == uid) = true by simp [hu])]
          exact ih
    rw [hfind]

/-- The events that may touch the role store through the UI: the two
role-management steps, the role pick, and the `/start` side effect; each
carries the acting user. -/
inductive RoleEvent where
  | roleAction (uid : Nat) (action : String)
  | roleUserId (uid : Nat) (mtext : Option String)
  | setRole (uid : Nat) (role : String)
  | startCmd (uid : Nat)
deriving DecidableEq, Repr

/-- One role-touching event applied to the database and (the acting user's)
conversation context. -/
def role_step (st : DB × FSMCtx) (e : RoleEvent) : DB × FSMCtx :=
  match e with
  | .roleAction uid a => let h := cb_role_action st.1 st.2 uid a; (h.db, h.ctx)
  | .roleUserId uid t => let h := st_role_user_id st.1 st.2 uid t; (h.db, h.ctx)
  | .setRole uid r => let h := cb_set_role st.1 st.2 uid r; (h.db, h.ctx)
  | .startCmd uid => (start_role_effect st.1 uid, st.2)

/-- A sequence of role-touching events. -/
def role_run (evs : List RoleEvent) (st : DB × FSMCtx) : DB × FSMCtx :=
  evs.foldl role_step st

theorem role_step_preserves_owner (e : RoleEvent) (db : DB) (ctx : FSMCtx)
    (h : db_get_role db OWNER_ID = "owner") :
    db_get_role (role_step (db, ctx) e).1 OWNER_ID = "owner" := by
  cases e with
  | roleAction uid a =>
    simp only [role_step, cb_role_action]
    split <;> exact h
  | roleUserId uid t =>
    simp only [role_step, st_role_user_id]
    split
    · exact h
    split
    · exact h
    split
    · exact h
    split
    · exact h
    rename_i hcond
    split
    · rename_i hact
      have hne : pyToNat (pystrip (t.getD "")) ≠ OWNER_ID := by
        intro he
        apply hcond
        have ha : ctx.data.action = some "unset" := eq_of_beq hact
        rw [he, ha]
        decide
      dsimp only
      rw [db_get_role_set_other db (pyToNat (pystrip (t.getD ""))) OWNER_ID "user" hne]
      exact h
    · exact h
  | setRole uid r =>
    simp only [role_step, cb_set_role]
    split
    · exact h
    split
    · exact h
    split
    · exact h
    rename_i target htarget
    split
    · exact h
    rename_i hcond
    have hne : target ≠ OWNER_ID := by
      intro he
      exact hcond (by simp [he])
    dsimp only
    rw [db_get_role_set_other db target OWNER_ID r hne]
    exact h
  | startCmd uid =>
    simp only [role_step, start_role_effect]
    split
    · rename_i huid
      have he : uid = OWNER_ID := by simpa using huid
      rw [he]
      exact db_get_role_set_self db OWNER_ID "owner"
    · rename_i huid
      have hne : uid ≠ OWNER_ID := by
        intro he
        exact huid (by simp [he])
      split
      · rw [db_get_role_set_other db uid OWNER_ID "user" hne]
        exact h
      · exact h

theorem role_run_preserves_owner (evs : List RoleEvent) :
    ∀ st : DB × FSMCtx, db_get_role st.1 OWNER_ID = "owner" →
      db_get_role (role_run evs st).1 OWNER_ID = "owner" := by
  induction evs with
  | nil => intro st h; exact h
  | cons e t ih =>
    intro st h
    rw [role_run, List.foldl_cons]
    exact ih (role_step st e) (role_step_preserves_owner e st.1 st.2 h)

theorem db_init_owner_role (db : DB) : db_get_role (db_init db) OWNER_ID = "owner" := by
  unfold db_init
  have husers : ∀ (l : List (String × String)) (acc : DB),
      (l.foldl settings_default_insert acc).users = acc.users := by
    intro l
    induction l with
    | nil => intro acc; rfl
    | cons a t ih =>
      intro acc
      rw [List.foldl_cons, ih]
      unfold settings_default_insert
      split <;> rfl
  have hrole : ∀ (l : List (String × String)) (acc : DB),
      db_get_role (l.foldl settings_default_insert acc) OWNER_ID
        = db_get_role acc OWNER_ID := by
    intro l acc
    unfold db_get_role
    rw [husers]
  rw [hrole]
  exact db_get_role_set_self db OWNER_ID "owner"

/-- C2: the owner identity is immune to the role UI — the revoke step
refuses an owner target with the explicit owner refusal (leaving database
and form untouched), the grant confirmation refuses an owner target the
same way, and after bootstrap every sequence of role-touching UI events
leaves `role_of(OWNER_ID) = owner`. -/
theorem C2_owner_role_fixed :
    (∀ (db : DB) (ctx : FSMCtx) (uid : Nat) (mtext : Option String),
      ctx.state = some St.rolesManage_user_id →
      require_min_role db uid "owner" = true →
      pyIsDigits (pystrip (mtext.getD "")) = true →
      pyToNat (pystrip (mtext.getD "")) = OWNER_ID →
      ctx.data.action = some "unset" →
      st_role_user_id db ctx uid mtext = ⟨db, ctx, .refusedOwner⟩)
    ∧ (∀ (db : DB) (ctx : FSMCtx) (uid : Nat) (role : String),
      ctx.state = some St.rolesManage_role →
      require_min_role db uid "owner" = true →
      ctx.data.target_user_id = some OWNER_ID →
      cb_set_role db ctx uid role = ⟨db, ctx, .refusedOwner⟩)
    ∧ (∀ (evs : List RoleEvent) (db : DB) (ctx : FSMCtx),
      db_get_role (role_run evs (db_init db, ctx)).1 OWNER_ID = "owner") := by
  refine ⟨?_, ?_, ?_⟩
  · intro db ctx uid mtext hstate hrole hdig htn hact
    simp only [st_role_user_id, hstate, hrole, hdig, htn, hact]
    simp
  · intro db ctx uid role hstate hrole htarget
    simp only [cb_set_role, hstate, hrole, htarget]
    simp
  · intro evs db ctx
    exact role_run_preserves_owner evs (db_init db, ctx) (db_init_owner_role db)

/-- C2 witness: the refusals and the invariant at concrete inputs —
the owner revoke attempt, the owner grant attempt, and a run of four role
events over the bootstrapped empty database. -/
theorem C2_owner_role_fixed_witness :
    st_role_user_id dbSample
        { state := some St.rolesManage_user_id, data := { action := some "unset" } }
        OWNER_ID (some "1831731188")
      = ⟨dbSample, { state := some St.rolesManage_user_id,
                     data := { action := some "unset" } }, .refusedOwner⟩
    ∧ cb_set_role dbSample
        { state := some St.rolesManage_role, data := { target_user_id := some OWNER_ID } }
        OWNER_ID "admin"
      = ⟨dbSample, { state := some St.rolesManage_role,
                     data := { target_user_id := some OWNER_ID } }, .refusedOwner⟩
    ∧ db_get_role (role_run
        [.roleAction OWNER_ID "unset", .roleUserId OWNER_ID (some "1831731188"),
         .setRole OWNER_ID "admin", .startCmd 5]
        (db_init {}, {})).1 OWNER_ID = "owner" :=
  ⟨C2_owner_role_fixed.1 dbSample _ OWNER_ID (some "1831731188") rfl (by decide)
      (by decide) (by decide) rfl,
   C2_owner_role_fixed.2.1 dbSample _ OWNER_ID "admin" rfl (by decide) rfl,
   C2_owner_role_fixed.2.2 _ {} {}⟩

/-- Complete Add Product form data reaching the final step, used in the
concrete examples below. -/
def dataFull : FSMData :=
  { category_id := some 1, subcategory_id := some 1, title := some "Cola2",
    price := some "2", description := some "", media_type := some "",
    media_file_id := some "", purchase_type := some "link",
    purchase_payload := some (.url "https://example.com/buy") }

/-- C4 counterexample: with user 9 (role `user`, below the form's required
`admin`), the Add Product price step still processes the event — outcome
`advanced`, cursor moved to the description step, nothing discarded — and
the final Add Product step still commits its store writes; neither step
rejects with an Unauthorized outcome. -/
theorem C4_counterexample :
    (let ctxP : FSMCtx := { state := some St.addProduct_price, data := {} }
     let ctxB : FSMCtx := { state := some St.addProduct_purchase_button_text, data := dataFull }
     require_min_role dbSample 9 "admin" = false
     ∧ (st_prod_price dbSample ctxP 9 (some "5")).out = .advanced
     ∧ (st_prod_price dbSample ctxP 9 (some "5")).ctx.state = some St.addProduct_description
     ∧ (st_pm_btn dbSample ctxB 9 (some "-")).out = .committed
     ∧ (st_pm_btn dbSample ctxB 9 (some "-")).db ≠ dbSample) := by
  decide

/-- C4 amended: authorization is re-checked only at some steps. The Add
Category title step re-checks `admin` and silently ignores an
under-privileged message — no store write, no reply, and the open
ConversationState is retained rather than discarded; the Add Product price
step and the final Add Product commit step perform no re-check at all:
their result is independent of the acting user, the price step always
advances, and the final step's store writes happen for any actor. -/
theorem C4_auth_recheck_only_some_steps :
    (∀ (db : DB) (ctx : FSMCtx) (uid : Nat) (mtext : Option String),
      ctx.state = some St.addCategory_title →
      require_min_role db uid "admin" = false →
      st_add_cat_title db ctx uid mtext = ⟨db, ctx, .ignored⟩)
    ∧ (∀ (db : DB) (ctx : FSMCtx) (uid uid2 : Nat) (mtext : Option String),
      st_prod_price db ctx uid mtext = st_prod_price db ctx uid2 mtext)
    ∧ (∀ (db : DB) (ctx : FSMCtx) (uid : Nat) (mtext : Option String),
      ctx.state = some St.addProduct_price →
      (st_prod_price db ctx uid mtext).out = .advanced)
    ∧ (∀ (db : DB) (ctx : FSMCtx) (uid uid2 : Nat) (mtext : Option String),
      st_pm_btn db ctx uid mtext = st_pm_btn db ctx uid2 mtext) := by
  refine ⟨?_, fun _ _ _ _ _ => rfl, ?_, fun _ _ _ _ _ => rfl⟩
  · intro db ctx uid mtext hstate hrole
    simp [st_add_cat_title, hstate, hrole]
  · intro db ctx uid mtext hstate
    simp [st_prod_price, hstate]

/-- C4 witness: the amended theorem at concrete inputs — user 9 in
`dbSample` is ignored at the Add Category title step with the context
kept, and the price step advances. -/
theorem C4_auth_recheck_only_some_steps_witness :
    st_add_cat_title dbSample { state := some St.addCategory_title, data := {} } 9 (some "X")
      = ⟨dbSample, { state := some St.addCategory_title, data := {} }, .ignored⟩
    ∧ (st_prod_price dbSample { state := some St.addProduct_price, data := {} } 9
        (some "5")).out = .advanced :=
  ⟨C4_auth_recheck_only_some_steps.1 dbSample _ 9 (some "X") rfl (by decide),
   C4_auth_recheck_only_some_steps.2.2.1 dbSample _ 9 (some "5") rfl⟩

/-- C5 counterexample: the final Add Product step is two separately
committed transactions, not one atomic unit — its result equals
`db_upsert_purchase_method` applied after `db_add_product`, and the
database state after the first transaction alone (what remains committed if
the second fails) contains the inserted product with no purchase method;
no `PartiallyCommitted`-style outcome exists in the handler's vocabulary,
its only outcome here is `committed`. -/
theorem C5_counterexample :
    (let ctxB : FSMCtx := { state := some St.addProduct_purchase_button_text, data := dataFull }
     let tx1 := db_add_product dbSample 1 "Cola2" "2" "" "" ""
     (st_pm_btn dbSample ctxB 7 (some "-")).db
        = db_upsert_purchase_method tx1.1 tx1.2 "link"
            (.url "https://example.com/buy") "РљСѓРїРёС‚СЊ"
     ∧ (st_pm_btn dbSample ctxB 7 (some "-")).out = .committed
     ∧ db_get_product tx1.1 tx1.2 = some ⟨3, 1, "Cola2", "2", "", "", "", 1, 0⟩
     ∧ db_get_purchase_method tx1.1 tx1.2 = none) := by
  decide

/-- C5 amended: the final Add Product step performs two sequential,
separately committed writes — `db_add_product` then
`db_upsert_purchase_method` — with no transactional coupling and no partial
surfacing; when both complete the new product carries its configured
method, while the state after the first write alone holds the product with
no method. -/
theorem C5_two_transaction_commit (db : DB) (ctx : FSMCtx) (uid : Nat)
    (mtext : Option String) (sid : Nat)
    (title price description mt mf ptype : String) (payload : PMPayload)
    (hstate : ctx.state = some St.addProduct_purchase_button_text)
    (hsid : ctx.data.subcategory_id = some sid)
    (htitle : ctx.data.title = some title)
    (hprice : ctx.data.price = some price)
    (hdesc : ctx.data.description = some description)
    (hmt : ctx.data.media_type = some mt)
    (hmf : ctx.data.media_file_id = some mf)
    (hptype : ctx.data.purchase_type = some ptype)
    (hpayload : ctx.data.purchase_payload = some payload)
    (hfreshP : ∀ p ∈ db.products, p.id ≠ db.prod_seq)
    (hfreshM : ∀ m ∈ db.purchase_methods, m.product_id ≠ db.prod_seq) :
    st_pm_btn db ctx uid mtext
      = ⟨db_upsert_purchase_method (db_add_product db sid title price description mt mf).1
            (db_add_product db sid title price description mt mf).2 ptype payload
            (if pystrip (mtext.getD "") = "-" || pystrip (mtext.getD "") = "" then "РљСѓРїРёС‚СЊ"
             else pystrip (mtext.getD "")),
         { state := none, data := {} }, .committed⟩
    ∧ db_get_product (db_add_product db sid title price description mt mf).1
        (db_add_product db sid title price description mt mf).2
        = some ⟨db.prod_seq, sid, title, price, description, mt, mf, 1, 0⟩
    ∧ db_get_purchase_method (db_add_product db sid title price description mt mf).1
        (db_add_product db sid title price description mt mf).2 = none
    ∧ db_get_purchase_method (st_pm_btn db ctx uid mtext).db
        (db_add_product db sid title price description mt mf).2
        = some (ptype, payload,
            (if pystrip (mtext.getD "") = "-" || pystrip (mtext.getD "") = "" then "РљСѓРїРёС‚СЊ"
             else pystrip (mtext.getD ""))) := by
  have hrun : st_pm_btn db ctx uid mtext
      = ⟨db_upsert_purchase_method (db_add_product db sid title price description mt mf).1
            (db_add_product db sid title price description mt mf).2 ptype payload
            (if pystrip (mtext.getD "") = "-" || pystrip (mtext.getD "") = "" then "РљСѓРїРёС‚СЊ"
             else pystrip (mtext.getD "")),
         { state := none, data := {} }, .committed⟩ := by
    simp only [st_pm_btn, hstate, hsid, htitle, hprice, hdesc, hmt, hmf, hptype, hpayload]
    simp
  have hprod : db_get_product (db_add_product db sid title price description mt mf).1
      (db_add_product db sid title price description mt mf).2
      = some ⟨db.prod_seq, sid, title, price, description, mt, mf, 1, 0⟩ := by
    unfold db_get_product db_add_product
    rw [find?_append_left_none _ _ _ (fun p hp => by simp [hfreshP p hp]),
      List.find?_cons_of_pos (p := fun q : Product => q.id == db.prod_seq) _ (by simp)]
  have hnone : db_get_purchase_method (db_add_product db sid title price description mt mf).1
      (db_add_product db sid title price description mt mf).2 = none := by
    unfold db_get_purchase_method db_add_product
    rw [List.find?_eq_none.mpr (fun m hm => by simp [hfreshM m hm])]
    rfl
  refine ⟨hrun, hprod, hnone, ?_⟩
  rw [hrun]
  show db_get_purchase_method (db_upsert_purchase_method
    (db_add_product db sid title price description mt mf).1
    (db_add_product db sid title price description mt mf).2 ptype payload _) _ = _
  unfold db_get_purchase_method db_upsert_purchase_method db_add_product
  have hany : ((db_add_product db sid title price description mt mf).1.purchase_methods.any
      (fun m => m.product_id == db.prod_seq)) = false := by
    rw [List.any_eq_false]
    intro m hm
    simp [hfreshM m hm]
  unfold db_add_product at hany
  simp only [hany, Bool.false_eq_true, if_false]
  rw [find?_append_left_none _ _ _ (fun m hm => by simp [hfreshM m hm]),
    List.find?_cons_of_pos (p := fun q : PurchaseMethod => q.product_id == db.prod_seq) _
      (by simp)]
  rfl

/-- C5 witness: the two-transaction decomposition at the concrete inputs of
the sample database. -/
theorem C5_two_transaction_commit_witness :
    (let ctxB : FSMCtx := { state := some St.addProduct_purchase_button_text, data := dataFull }
     st_pm_btn dbSample ctxB 7 (some "x")
      = ⟨db_upsert_purchase_method (db_add_product dbSample 1 "Cola2" "2" "" "" "").1
            (db_add_product dbSample 1 "Cola2" "2" "" "" "").2 "link"
            (.url "https://example.com/buy")
            (if pystrip ((some "x").getD "") = "-" || pystrip ((some "x").getD "") = ""
             then "РљСѓРїРёС‚СЊ" else pystrip ((some "x").getD "")),
         { state := none, data := {} }, .committed⟩
     ∧ db_get_product (db_add_product dbSample 1 "Cola2" "2" "" "" "").1
        (db_add_product dbSample 1 "Cola2" "2" "" "" "").2
        = some ⟨dbSample.prod_seq, 1, "Cola2", "2", "", "", "", 1, 0⟩
     ∧ db_get_purchase_method (db_add_product dbSample 1 "Cola2" "2" "" "" "").1
        (db_add_product dbSample 1 "Cola2" "2" "" "" "").2 = none
     ∧ db_get_purchase_method (st_pm_btn dbSample ctxB 7 (some "x")).db
        (db_add_product dbSample 1 "Cola2" "2" "" "" "").2
        = some ("link", .url "https://example.com/buy",
            (if pystrip ((some "x").getD "") = "-" || pystrip ((some "x").getD "") = ""
             then "РљСѓРїРёС‚СЊ" else pystrip ((some "x").getD "")))) :=
  C5_two_transaction_commit dbSample _ 7 (some "x") 1 "Cola2" "2" "" "" "" "link"
    (.url "https://example.com/buy") rfl rfl rfl rfl rfl rfl rfl rfl rfl
    (by decide) (by decide)

/-- The per-user session store: aiogram keys exactly one FSM context per
user id; a handler writes back only its own user's entry. -/
def sessions_update (sessions : Nat → FSMCtx) (uid : Nat) (ctx : FSMCtx) :
    Nat → FSMCtx :=
  fun v => if v = uid then ctx else sessions v

/-- C7 counterexample: user 7 opens Add Subcategory and picks category 1
(`category_id` lands in the data), then starts Add Category while that form
is still open — the new form's entry handler overwrites the step cursor but
the abandoned form's accumulated `category_id` is still present, so the
previous ConversationState is not discarded entirely. -/
theorem C7_counterexample :
    (let c1 := (cb_add_sub dbSample { state := none, data := {} } 7).ctx
     let c2 := (cb_pick_cat_for_sub dbSample c1 1).ctx
     let c3 := (cb_add_cat dbSample c2 7).ctx
     c2.state = some St.addSubcategory_title
     ∧ c2.data.category_id = some 1
     ∧ c3.state = some St.addCategory_title
     ∧ c3.data.category_id = some 1
     ∧ c3.data ≠ ({} : FSMData)) := by
  decide

/-- C7 amended: each user has exactly one keyed ConversationState (updating
one user's entry leaves every other user's context unchanged and replaces
that user's context wholesale), and starting a new form while one is open
silently overwrites only the step cursor — the abandoned form's accumulated
field data is retained in the context, not discarded; it is only replaced
key by key as the new form writes. -/
theorem C7_single_session_new_form_keeps_data :
    (∀ (db : DB) (ctx : FSMCtx) (uid : Nat),
      require_min_role db uid "admin" = true →
      (cb_add_cat db ctx uid).ctx.state = some St.addCategory_title
      ∧ (cb_add_cat db ctx uid).ctx.data = ctx.data)
    ∧ (∀ (db : DB) (ctx : FSMCtx) (uid : Nat),
      require_min_role db uid "admin" = true → db_get_categories db ≠ [] →
      (cb_add_sub db ctx uid).ctx.state = some St.addSubcategory_pick_category
      ∧ (cb_add_sub db ctx uid).ctx.data = ctx.data)
    ∧ (∀ (db : DB) (ctx : FSMCtx) (uid : Nat),
      require_min_role db uid "admin" = true → db_get_categories db ≠ [] →
      (cb_add_product db ctx uid).ctx.state = some St.addProduct_pick_category
      ∧ (cb_add_product db ctx uid).ctx.data = ctx.data)
    ∧ (∀ (sessions : Nat → FSMCtx) (uid v : Nat) (c : FSMCtx),
      v ≠ uid → sessions_update sessions uid c v = sessions v)
    ∧ (∀ (sessions : Nat → FSMCtx) (uid : Nat) (c : FSMCtx),
      sessions_update sessions uid c uid = c) := by
  refine ⟨?_, ?_, ?_, ?_, ?_⟩
  · intro db ctx uid hrole
    simp [cb_add_cat, hrole]
  · intro db ctx uid hrole hcats
    simp [cb_add_sub, hrole, hcats]
  · intro db ctx uid hrole hcats
    simp [cb_add_product, hrole, hcats]
  · intro sessions uid v c hne
    simp [sessions_update, hne]
  · intro sessions uid c
    simp [sessions_update]

/-- C7 witness: the amended theorem at user 7 of the sample database with
an open Add Subcategory form. -/
theorem C7_single_session_new_form_keeps_data_witness :
    ((cb_add_cat dbSample
        { state := some St.addSubcategory_title, data := { category_id := some 1 } }
        7).ctx.state = some St.addCategory_title
     ∧ (cb_add_cat dbSample
        { state := some St.addSubcategory_title, data := { category_id := some 1 } }
        7).ctx.data = ({ category_id := some 1 } : FSMData))
    ∧ sessions_update (fun _ => {}) 7
        { state := some St.addCategory_title, data := {} } 9 = {} :=
  ⟨C7_single_session_new_form_keeps_data.1 dbSample
      { state := some St.addSubcategory_title, data := { category_id := some 1 } } 7
      (by decide),
   C7_single_session_new_form_keeps_data.2.2.2.1 (fun _ => {}) 7 9
      { state := some St.addCategory_title, data := {} } (by decide)⟩

/-- C8 counterexample: a `link` payload without any URL scheme is accepted
at the payload step (outcome `advanced`, payload stored as the raw text),
and completing the SetBuy flow stores the method with that schemeless text —
no validation error, a method is stored. -/
theorem C8_counterexample :
    (let ctx : FSMCtx := { state := some St.addProduct_purchase_payload,
                           data := { purchase_type := some "link" } }
     let ctx2 : FSMCtx := { state := some St.setBuy_purchase_payload,
                            data := { product_id := some 1, purchase_type := some "link" } }
     (st_pm_payload dbSample ctx 7 (some "not a url")).out = .advanced
     ∧ (st_pm_payload dbSample ctx 7 (some "not a url")).ctx.data.purchase_payload
        = some (.url "not a url")
     ∧ (st_pm_payload dbSample ctx 7 (some "not a url")).ctx.state
        = some St.addProduct_purchase_button_text
     ∧ (st_setbuy_btn dbSample
          (st_setbuy_payload dbSample ctx2 7 (some "not a url")).ctx 7
          (some "-")).db.purchase_methods
        = [⟨1, 1, "link", .url "not a url", "РљСѓРїРёС‚СЊ"⟩]) := by
  decide

/-- C8 amended: the payload step of both purchase-method forms rejects only
empty (post-strip) input, re-prompting; any non-empty text is accepted for
kind `link` and wrapped unchecked as the stored url — no scheme is ever
inspected. -/
theorem C8_link_payload_no_scheme_check :
    (∀ (db : DB) (ctx : FSMCtx) (uid : Nat) (mtext : Option String),
      ctx.state = some St.addProduct_purchase_payload →
      ctx.data.purchase_type = some "link" →
      (pystrip (mtext.getD "") = "" → st_pm_payload db ctx uid mtext = ⟨db, ctx, .reprompt⟩)
      ∧ (pystrip (mtext.getD "") ≠ "" → st_pm_payload db ctx uid mtext
          = ⟨db, { state := some St.addProduct_purchase_button_text,
                   data := { ctx.data with
                     purchase_payload := some (.url (pystrip (mtext.getD ""))) } },
             .advanced⟩))
    ∧ (∀ (db : DB) (ctx : FSMCtx) (uid : Nat) (mtext : Option String),
      ctx.state = some St.setBuy_purchase_payload →
      ctx.data.purchase_type = some "link" →
      (pystrip (mtext.getD "") = "" → st_setbuy_payload db ctx uid mtext = ⟨db, ctx, .reprompt⟩)
      ∧ (pystrip (mtext.getD "") ≠ "" → st_setbuy_payload db ctx uid mtext
          = ⟨db, { state := some St.setBuy_purchase_button_text,
                   data := { ctx.data with
                     purchase_payload := some (.url (pystrip (mtext.getD ""))) } },
             .advanced⟩)) := by
  constructor
  · intro db ctx uid mtext hstate hptype
    constructor
    · intro hempty
      simp [st_pm_payload, hstate, hempty]
    · intro hne
      simp [st_pm_payload, hstate, hptype, hne]
  · intro db ctx uid mtext hstate hptype
    constructor
    · intro hempty
      simp [st_setbuy_payload, hstate, hempty]
    · intro hne
      simp [st_setbuy_payload, hstate, hptype, hne]

/-- C8 witness: the amended payload behavior at the concrete inputs
`""` (re-prompt) and `"not a url"` (accepted and wrapped). -/
theorem C8_link_payload_no_scheme_check_witness :
    (let ctx : FSMCtx := { state := some St.addProduct_purchase_payload,
                           data := { purchase_type := some "link" } }
     st_pm_payload dbSample ctx 7 (some "")
      = ⟨dbSample, ctx, .reprompt⟩
     ∧ st_pm_payload dbSample ctx 7 (some "not a url")
      = ⟨dbSample, { state := some St.addProduct_purchase_button_text,
                     data := { ctx.data with
                       purchase_payload := some (.url (pystrip ((some "not a url").getD ""))) } },
         .advanced⟩) :=
  ⟨(C8_link_payload_no_scheme_check.1 dbSample _ 7 (some "") rfl rfl).1 (by decide),
   (C8_link_payload_no_scheme_check.1 dbSample _ 7 (some "not a url") rfl rfl).2 (by decide)⟩

end ShopBot
